import Mathlib

/-!
Verification of the streamlit-data-browser query/permission/validation pipeline.

Strings are modelled as lists of characters (`Str`); the Python functions of
`src/browser/validation/validator.py`, `src/core/session.py`,
`src/browser/permission_service.py`, `src/auth/service.py`,
`src/auth/repositories.py`, `src/browser/repositories.py`,
`src/browser/service.py` and `src/streamlit_data_browser.py` are embedded as
executable Lean functions.  Database and backend effects are passed in
explicitly (as oracle functions or state values).
-/

set_option maxHeartbeats 1000000

/-- Strings are modelled as lists of characters. -/
abbrev Str := List Char

/-- Python `str.strip()`: drop whitespace from both ends.
(The model uses `Char.isWhitespace`, i.e. space, tab, CR, LF.) -/
def stripChars (s : Str) : Str :=
  ((s.dropWhile Char.isWhitespace).reverse.dropWhile Char.isWhitespace).reverse

/-- A regex word character `[A-Za-z0-9_]`, as used by the `\b` boundary in
Python's `re` module (ASCII view suffices for the deny-list keywords). -/
def isWordChar (c : Char) : Bool := c.isAlphanum || c = '_'

/-- ASCII lowercasing of a character list (models `re.IGNORECASE` comparison). -/
def lowerStr (s : Str) : Str := s.map Char.toLower

/-- Helper for `wordRuns`: accumulates the current run of word characters. -/
def wordRunsAux : Str → Str → List Str
  | [], acc => if acc = [] then [] else [acc.reverse]
  | c :: rest, acc =>
    if isWordChar c then wordRunsAux rest (c :: acc)
    else if acc = [] then wordRunsAux rest []
    else acc.reverse :: wordRunsAux rest []

/-- The maximal runs of word characters of a string, in order. -/
def wordRuns (s : Str) : List Str := wordRunsAux s []

/-- Substring containment, `pat in s` in Python. -/
def containsSub (s pat : Str) : Bool := decide (pat <:+: s)

/-- Case-insensitive whole-word containment of a keyword.
For a pattern consisting only of word characters (all deny-list keywords are
alphabetic), a `re.search` of `\bKW\b` with `re.IGNORECASE` succeeds exactly
when `KW` equals one of the maximal word-character runs of the subject,
compared case-insensitively: the two boundaries force the occurrence to be a
maximal run. -/
def containsKeywordWholeWord (kw s : Str) : Bool :=
  (wordRuns s).any (fun r => lowerStr r = lowerStr kw)

/-- Is the character at index `i` (if any) a word character? -/
def wordAt (s : Str) (i : Nat) : Bool :=
  match s.get? i with
  | some c => isWordChar c
  | none => false

/-- Regex `\b`: position `i` is a word boundary when exactly one of its two
neighbouring positions holds a word character (out of range counts as
non-word). -/
def boundaryAt (s : Str) (i : Nat) : Bool :=
  (if i = 0 then false else wordAt s (i - 1)) != wordAt s i

/-- Case-insensitive literal match of `p` at index `i` of `s`. -/
def matchCIAt (s p : Str) (i : Nat) : Bool :=
  decide (lowerStr ((s.drop i).take p.length) = lowerStr p)

/-- General `re.search` of the escaped literal `p` wrapped in `\b...\b`
(used by the optional column check, whose column names may contain
non-word characters). -/
def containsWordBoundary (p s : Str) : Bool :=
  (List.range (s.length + 1)).any (fun i =>
    matchCIAt s p i && boundaryAt s i && boundaryAt s (i + p.length))

/-- `SQL_COMMENT_PATTERNS` from `src/config/constants.py`: `;`, `--`, `/*`. -/
def SQL_COMMENT_PATTERNS : List Str := [[';'], ['-', '-'], ['/', '*']]

/-- `FORBIDDEN_SQL_KEYWORDS` from `src/config/constants.py`. -/
def FORBIDDEN_SQL_KEYWORDS : List Str :=
  [("DELETE").data, ("UPDATE").data, ("INSERT").data, ("DROP").data,
   ("ALTER").data, ("EXEC").data, ("EXECUTE").data, ("CREATE").data]

/-- Error message `Nepovolený znak: {pattern}`. -/
def badCharMsg (pat : Str) : Str := ("Nepovolený znak: ").data ++ pat

/-- Error message for a forbidden keyword. -/
def badKeywordMsg : Str := ("Nepovolené SQL klíčové slovo").data

/-- Error message for a filter mentioning no known column. -/
def noColumnMsg : Str := ("WHERE klauzule neobsahuje žádný platný sloupec").data

/-- The `for pattern in SQL_COMMENT_PATTERNS` loop of `validate_where_clause`:
first pattern contained in the clause, if any. -/
def findBadPattern (w : Str) : List Str → Option Str
  | [] => none
  | p :: ps => if containsSub w p then some p else findBadPattern w ps

/-- `validate_where_clause` from `src/browser/validation/validator.py`:
returns `(is_valid, clean_clause-or-error-message)`; an empty clause is valid
with no payload, otherwise the clause is stripped, checked against the comment
patterns and forbidden keywords, and (when a column list is supplied and
non-empty) required to mention at least one column as a whole word. -/
def validate_where_clause (wc : Str) (columns : Option (List Str)) :
    Bool × Option Str :=
  if wc = [] then (true, none)
  else
    let w := stripChars wc
    match findBadPattern w SQL_COMMENT_PATTERNS with
    | some pat => (false, some (badCharMsg pat))
    | none =>
      if FORBIDDEN_SQL_KEYWORDS.any (fun kw => containsKeywordWholeWord kw w) then
        (false, some badKeywordMsg)
      else
        match columns with
        | some cols =>
          if cols ≠ [] ∧ ¬ cols.any (fun c => containsWordBoundary c w) then
            (false, some noColumnMsg)
          else (true, some w)
        | none => (true, some w)

/-! ### Permission model (`src/core/session.py`, `src/browser/permission_service.py`) -/

/-- A user's permission snapshot: schema name → permission level, as stored in
the Streamlit session (`st.session_state.permissions`, a Python dict). -/
abbrev PermMap := Str → Option Str

/-- The string value of `PermissionLevel.READ` (a `str` enum, so it compares
equal to the plain string `"read"`). -/
def permRead : Str := ("read").data

/-- The string value of `PermissionLevel.WRITE`. -/
def permWrite : Str := ("write").data

/-- `SessionManager.has_permission`: for level `read` the stored level must be
`read` or `write`; for level `write` it must be `write`; any other requested
level yields `False`.  A schema with no entry (`dict.get` returns `None`)
fails both. -/
def has_permission (perms : PermMap) (schema_name required_level : Str) : Bool :=
  let user_level := perms schema_name
  if required_level = permRead then
    decide (user_level = some permRead ∨ user_level = some permWrite)
  else if required_level = permWrite then
    decide (user_level = some permWrite)
  else false

/-- Message raised by `check_schema_read_access`. -/
def readDeniedMsg (schema : Str) : Str :=
  ("Nemáte oprávnění číst data ze schématu '").data ++ schema ++ [Char.ofNat 39]

/-- Message raised by `check_schema_write_access`. -/
def writeDeniedMsg (schema : Str) : Str :=
  ("Nemáte oprávnění 'write' k zápisu do schématu '").data ++ schema ++ [Char.ofNat 39]

/-- `BrowserPermissionService.check_schema_read_access`: returns `True` or
raises `PermissionDeniedError` (modelled as `Except.error` carrying the
message). -/
def check_schema_read_access (perms : PermMap) (schema_name : Str) :
    Except Str Bool :=
  if has_permission perms schema_name permRead then .ok true
  else .error (readDeniedMsg schema_name)

/-- `BrowserPermissionService.check_schema_write_access`. -/
def check_schema_write_access (perms : PermMap) (schema_name : Str) :
    Except Str Bool :=
  if has_permission perms schema_name permWrite then .ok true
  else .error (writeDeniedMsg schema_name)

/-! ### Login (`src/auth/service.py`) -/

/-- A row of `auth.users` as far as `login` consults it. -/
structure AuthUser where
  id : Nat
  email : Str
  password_hash : Str
  is_active : Bool
deriving DecidableEq

/-- `LoginResult` from `src/auth/models.py` (permissions omitted: they play no
role in the failure-mode claims). -/
structure LoginResult where
  success : Bool
  error_message : Option Str
  user : Option AuthUser
deriving DecidableEq

/-- `EmailValidator.normalize`: `email.strip().lower()`. -/
def normalize_email (e : Str) : Str := lowerStr (stripChars e)

/-- The generic failure message of `AuthService.login`. -/
def invalidCredsMsg : Str := ("Neplatné přihlašovací údaje").data

/-- The distinct message returned when the account is deactivated. -/
def deactivatedMsg : Str :=
  ("Váš účet byl deaktivován. Kontaktujte administrátora.").data

/-- `AuthService.login`: the e-mail is normalised, the user looked up
(`find_by_email` oracle); an absent user, an inactive user and a failed
password verification (`verify` oracle) each return `success = False` with
the message the source hard-codes for that branch. -/
def login (find_by_email : Str → Option AuthUser) (verify : Str → Str → Bool)
    (email password : Str) : LoginResult :=
  let em := normalize_email email
  match find_by_email em with
  | none => ⟨false, some invalidCredsMsg, none⟩
  | some u =>
    if u.is_active = false then ⟨false, some deactivatedMsg, none⟩
    else if verify password u.password_hash = false then
      ⟨false, some invalidCredsMsg, none⟩
    else ⟨true, none, some u⟩

/-! ### Password-reset tokens (`src/auth/repositories.py`) -/

/-- `TOKEN_EXPIRY_HOURS` from `src/config/constants.py` (time is modelled in
hours). -/
def TOKEN_EXPIRY_HOURS : Nat := 1

/-- A row of `auth.password_resets`. -/
structure ResetToken where
  user_id : Nat
  token : Str
  expires_at : Nat
  used : Bool
deriving DecidableEq

/-- The auth-database state `TokenRepository` operates on: the
`password_resets` rows plus the `is_active` column of `auth.users`
(consulted by `verify_token`'s JOIN). -/
structure AuthDB where
  tokens : List ResetToken
  activeUsers : Nat → Option Bool

/-- The `UPDATE ... SET used = TRUE WHERE user_id = :user_id AND used = FALSE`
statement of `create_reset_token`, applied to one row. -/
def markUsedFor (uid : Nat) (t : ResetToken) : ResetToken :=
  if t.user_id = uid ∧ t.used = false then { t with used := true } else t

/-- `TokenRepository.create_reset_token`: invalidates all prior unused tokens
of the user, then inserts a fresh one expiring `TOKEN_EXPIRY_HOURS` from now
(the random token value is supplied as `newTok`). -/
def create_reset_token (db : AuthDB) (uid : Nat) (newTok : Str) (now : Nat) :
    AuthDB × Str :=
  ({ db with
      tokens := db.tokens.map (markUsedFor uid) ++
        [⟨uid, newTok, now + TOKEN_EXPIRY_HOURS, false⟩] },
   newTok)

/-- `TokenRepository.verify_token`: looks up the row by token value (tokens
are unique in the schema; the model takes the first match), requires the
joined user row to exist, and returns `None` when the token is used, expired
(`now > expires_at`) or its user inactive. -/
def verify_token (db : AuthDB) (tok : Str) (now : Nat) : Option ResetToken :=
  match db.tokens.find? (fun t => decide (t.token = tok)) with
  | none => none
  | some t =>
    match db.activeUsers t.user_id with
    | none => none
    | some active =>
      if t.used then none
      else if decide (now > t.expires_at) then none
      else if active = false then none
      else some t

/-! ### Table identifier resolution (`src/browser/validation/validator.py`
and `src/streamlit_data_browser.py`) -/

/-- Python `table_id.split('.', 1)` when it yields two parts: the segments
before and after the first `'.'`; `none` when the string has no dot (the
two-variable unpacking then raises `ValueError`). -/
def splitFirstDot : Str → Option (Str × Str)
  | [] => none
  | c :: rest =>
    if c = '.' then some ([], rest)
    else (splitFirstDot rest).map (fun p => (c :: p.1, p.2))

/-- The format-error message of both resolvers. -/
def formatErrMsg (table_id : Str) : Str :=
  ("Neplatný formát table_id: ").data ++ table_id ++
    (". Očekáván 'schema.table'.").data

/-- The empty-segment message of `TableValidator.validate_table_id`. -/
def emptySegmentMsg : Str :=
  ("Schema ani název tabulky nesmí být prázdný").data

/-- `TableValidator.validate_table_id` (the modular resolver): splits on the
first dot, rejects a missing dot and empty segments with `ValidationError`,
and returns the `(schema, table)` pair.  It consults no catalog. -/
def validate_table_id (table_id : Str) : Except Str (Str × Str) :=
  match splitFirstDot table_id with
  | none => .error (formatErrMsg table_id)
  | some (schema_name, table_name) =>
    if schema_name = [] ∨ table_name = [] then .error emptySegmentMsg
    else .ok (schema_name, table_name)

/-- `TableValidator.get_safe_table_sql`: `"schema"."table"`. -/
def get_safe_table_sql (schema_name table_name : Str) : Str :=
  '"' :: schema_name ++ '"' :: '.' :: '"' :: table_name ++ ['"']

/-- The two error kinds of the legacy resolver (both `ValueError` in Python,
distinguished by their message). -/
inductive ResolveError
  | invalidFormat (msg : Str)
  | unknownTable (msg : Str)
deriving DecidableEq

/-- The unknown-table message of the legacy resolver. -/
def unknownTableMsg (table_id : Str) : Str :=
  ("Neplatný nebo nepovolený název tabulky: ").data ++ table_id

/-- The values of `list_tables(schema)`: `f"{schema}.{name}"` for each table
name the live catalog reports for the schema. -/
def list_tables_values (catalog : Str → List Str) (schema_name : Str) :
    List Str :=
  (catalog schema_name).map (fun name => schema_name ++ '.' :: name)

/-- `validate_table_id` from `src/streamlit_data_browser.py` (the legacy
resolver): splits on the first dot (no dot → format `ValueError`), then
requires `table_id` to be among the catalog's `schema.table` values
(otherwise the unknown-table `ValueError`), and returns the quoted SQL
identifier. -/
def legacy_validate_table_id (catalog : Str → List Str) (table_id : Str) :
    Except ResolveError Str :=
  match splitFirstDot table_id with
  | none => .error (.invalidFormat (formatErrMsg table_id))
  | some (schema_name, table_name) =>
    if table_id ∈ list_tables_values catalog schema_name then
      .ok (get_safe_table_sql schema_name table_name)
    else .error (.unknownTable (unknownTableMsg table_id))

/-! ### Query engine (`src/browser/repositories.py`, `src/browser/service.py`) -/

/-- A rectangular in-memory table standing in for a `pandas.DataFrame`. -/
structure Frame where
  cols : List Str
  rows : List (List Str)
deriving DecidableEq

/-- A parameterised statement handed to the SQLAlchemy connection: the SQL
text plus the dictionary of bound numeric parameters. -/
structure FetchRequest where
  sqlText : Str
  params : List (Str × Nat)
deriving DecidableEq

/-- The `WHERE`-suffix of the composed queries; mirrors the Python
`if where_clause:` truthiness test (an empty string adds nothing). -/
def whereSuffix (wc : Option Str) : Str :=
  match wc with
  | some w => if w = [] then [] else (" WHERE ").data ++ w
  | none => []

/-- The text of `BrowserRepository.get_row_count`'s query. -/
def count_query (schema_name table_name : Str) (wc : Option Str) : Str :=
  ("SELECT COUNT(*) FROM ").data ++ get_safe_table_sql schema_name table_name ++
    whereSuffix wc

/-- `BrowserRepository.get_row_count`: runs the count query through the
backend (`runCount` oracle); any backend exception is caught, logged, and
turned into a row count of `0`. -/
def get_row_count (runCount : Str → Except Str Nat)
    (schema_name table_name : Str) (wc : Option Str) : Nat :=
  match runCount (count_query schema_name table_name wc) with
  | .ok n => n
  | .error _ => 0

/-- The trailing ordering/pagination fragment of the fetch query. -/
def orderLimitSuffix : Str := (" ORDER BY 1 LIMIT :limit OFFSET :offset").data

/-- The SQL text of `BrowserRepository.fetch_data`'s query. -/
def fetch_query_text (schema_name table_name : Str) (wc : Option Str) : Str :=
  ("SELECT * FROM ").data ++ get_safe_table_sql schema_name table_name ++
    whereSuffix wc ++ orderLimitSuffix

/-- The full statement `fetch_data` executes: the text plus the bound
`limit`/`offset` parameter dictionary. -/
def fetch_request (schema_name table_name : Str) (limit offset : Nat)
    (wc : Option Str) : FetchRequest :=
  ⟨fetch_query_text schema_name table_name wc,
   [(("limit").data, limit), (("offset").data, offset)]⟩

/-- The prefix of the `DatabaseError` message `fetch_data` raises. -/
def fetchErrPrefix : Str := ("Chyba při načítání dat: ").data

/-- `BrowserRepository.fetch_data`: executes the fetch request through the
backend (`runQuery` oracle); a backend exception `e` is caught, logged, and
re-raised as `DatabaseError(f"Chyba při načítání dat: {e}")` (modelled as
`Except.error` carrying that message). -/
def fetch_data (runQuery : FetchRequest → Except Str Frame)
    (schema_name table_name : Str) (limit offset : Nat) (wc : Option Str) :
    Except Str Frame :=
  match runQuery (fetch_request schema_name table_name limit offset wc) with
  | .ok df => .ok df
  | .error e => .error (fetchErrPrefix ++ e)

/-- `QueryResult` from `src/browser/models.py` (the dataframe plus the
pagination metadata). -/
structure QueryResult where
  data : Frame
  row_count : Nat
  page : Nat
  page_size : Nat
  total_rows : Nat
  total_pages : Nat
  has_next : Bool
  has_previous : Bool
deriving DecidableEq

/-- The errors `BrowserService.load_table_data` can raise. -/
inductive LoadError
  | validation (msg : Str)
  | permissionDenied (msg : Str)
  | database (msg : Str)
deriving DecidableEq

/-- `BrowserService.load_table_data`: validates the table id, checks read
permission, computes `offset = (page - 1) * page_size`, obtains the total row
count, derives `total_pages = ceil(total_rows / page_size)` when rows exist
and `1` otherwise, fetches the page, and assembles the `QueryResult`.
(The model presumes `page_size ≥ 1`; Python would raise `ZeroDivisionError`
at `page_size = 0`.) -/
def load_table_data (perms : PermMap) (runCount : Str → Except Str Nat)
    (runQuery : FetchRequest → Except Str Frame) (table_id : Str)
    (page page_size : Nat) (wc : Option Str) : Except LoadError QueryResult :=
  match validate_table_id table_id with
  | .error m => .error (.validation m)
  | .ok (schema_name, table_name) =>
    if has_permission perms schema_name permRead then
      let offset := (page - 1) * page_size
      let total_rows := get_row_count runCount schema_name table_name wc
      let total_pages :=
        if 0 < total_rows then (total_rows + page_size - 1) / page_size else 1
      match fetch_data runQuery schema_name table_name page_size offset wc with
      | .error m => .error (.database m)
      | .ok df =>
        .ok ⟨df, df.rows.length, page, page_size, total_rows, total_pages,
             decide (page < total_pages), decide (1 < page)⟩
    else .error (.permissionDenied (readDeniedMsg schema_name))

/-! ### Table replacement (`src/browser/repositories.py`,
`src/browser/service.py`, `src/streamlit_data_browser.py`) -/

/-- The database's table store: `(schema, table) → contents`. -/
abbrev DbState := Str × Str → Option Frame

/-- `BrowserRepository.replace_table`: one transaction dropping, recreating
and refilling the table.  A backend failure anywhere inside (modelled by the
`backendFail` flag) rolls the transaction back and raises `DatabaseError`;
on success the table holds exactly the supplied frame. -/
def replace_table (db : DbState) (backendFail : Bool)
    (schema_name table_name : Str) (df : Frame) : Except Str DbState :=
  if backendFail then .error (("Chyba při nahrazování tabulky").data)
  else .ok (fun k =>
    if k = (schema_name, table_name) then some df else db k)

/-- The errors `save_table_changes` can propagate (its `try` only wraps the
replacement itself, so validation and permission errors escape). -/
inductive SaveError
  | validation (msg : Str)
  | permissionDenied (msg : Str)
deriving DecidableEq

/-- `BrowserService.save_table_changes`: a `None` or empty dataframe returns
`False` immediately; otherwise the table id is validated and write permission
checked (both raising), and the replacement attempted — any exception there
is caught and turned into `False`.  The returned state is the database after
the call. -/
def save_table_changes (perms : PermMap) (db : DbState) (backendFail : Bool)
    (table_id : Str) (df : Option Frame) :
    Except SaveError (Bool × DbState) :=
  match df with
  | none => .ok (false, db)
  | some f =>
    if f.rows = [] then .ok (false, db)
    else
      match validate_table_id table_id with
      | .error m => .error (.validation m)
      | .ok (schema_name, table_name) =>
        if has_permission perms schema_name permWrite then
          match replace_table db backendFail schema_name table_name f with
          | .ok dbNew => .ok (true, dbNew)
          | .error _ => .ok (false, db)
        else .error (.permissionDenied (writeDeniedMsg schema_name))

/-- `replace_table` from `src/streamlit_data_browser.py` (the legacy path):
validates the table id against the catalog (any exception is caught and shown
via `st.error`, leaving the database untouched), then drops, recreates and
refills the table inside one transaction — with **no** emptiness guard on the
dataframe.  Returns the new state and whether an error was shown. -/
def legacy_replace_table (catalog : Str → List Str) (db : DbState)
    (backendFail : Bool) (table_id : Str) (df : Frame) : DbState × Bool :=
  match legacy_validate_table_id catalog table_id with
  | .error _ => (db, true)
  | .ok _ =>
    match splitFirstDot table_id with
    | none => (db, true)
    | some (schema_name, table_name) =>
      if backendFail then (db, true)
      else ((fun k =>
        if k = (schema_name, table_name) then some df else db k), false)

/-! ### Concrete instances used by witnesses and counterexamples -/

/-- A permission snapshot granting `write` on `sales` only. -/
def permsSalesWrite : PermMap :=
  fun s => if s = ("sales").data then some permWrite else none

/-- A user directory containing a single deactivated account. -/
def inactiveUserDB : Str → Option AuthUser :=
  fun e => if e = ("bob@example.com").data then
    some ⟨1, ("bob@example.com").data, ("hash").data, false⟩ else none

/-- An empty user directory. -/
def absentUserDB : Str → Option AuthUser := fun _ => none

/-- A password verifier that always fails. -/
def alwaysFailVerify : Str → Str → Bool := fun _ _ => false

/-- Reset-token row used by the C4 witness. -/
def tokenRowA : ResetToken := ⟨7, ("tokenA").data, 100, false⟩

/-- Auth database used by the C4 witness: one unused, unexpired token of
user 7, who is active. -/
def authDBForC4 : AuthDB :=
  ⟨[tokenRowA], fun i => if i = 7 then some true else none⟩

/-- A catalog with the single schema `public` holding the single table
`users`. -/
def catalogPublicUsers : Str → List Str :=
  fun s => if s = ("public").data then [("users").data] else []

/-- A catalog with the single schema `public` holding the single table `t`. -/
def catalogPublicT : Str → List Str :=
  fun s => if s = ("public").data then [("t").data] else []

/-- A one-column, one-row frame. -/
def frameOneRow : Frame := ⟨[("a").data], [[("1").data]]⟩

/-- A one-column frame with no rows (an empty edit buffer). -/
def emptyFrame : Frame := ⟨[("a").data], []⟩

/-- A database state in which `public.t` holds `frameOneRow`. -/
def dbPublicT : DbState :=
  fun k => if k = ((("public").data), (("t").data)) then some frameOneRow
    else none

/-- A count backend that always fails. -/
def failingCount : Str → Except Str Nat :=
  fun _ => .error (("connection refused").data)

/-- A select backend that always fails with a raw backend message. -/
def failingQuery : FetchRequest → Except Str Frame :=
  fun _ => .error (("FATAL: relation missing").data)

/-- A count backend reporting 125 rows. -/
def okCount125 : Str → Except Str Nat := fun _ => .ok 125

/-- A select backend returning `frameOneRow` for every request. -/
def okQueryOneRow : FetchRequest → Except Str Frame :=
  fun _ => .ok frameOneRow
/-- The `QueryResult` produced by the C9 witness scenario (page 3 of 125
rows at page size 50). -/
def qrC9 : QueryResult := ⟨frameOneRow, 1, 3, 50, 125, 3, false, true⟩

/-! ## Supporting lemmas for the filter validator -/

/-- Whitespace characters are not regex word characters. -/
theorem whitespace_not_word {c : Char} (h : c.isWhitespace = true) :
    isWordChar c = false := by
  simp only [Char.isWhitespace, Bool.or_eq_true, decide_eq_true_eq] at h
  rcases h with ((h | h) | h) | h <;> subst h <;> decide

/-- A nonempty pattern none of whose characters satisfies `P` survives
`dropWhile P` as an infix. -/
theorem infix_dropWhile_of_none (P : Char → Bool) {p l : Str}
    (hne : p ≠ []) (hnp : ∀ c ∈ p, P c = false) (h : p <:+: l) :
    p <:+: l.dropWhile P := by
  induction l with
  | nil => exact absurd (List.eq_nil_of_infix_nil h) hne
  | cons c t ih =>
    cases hP : P c with
    | false => simpa [List.dropWhile_cons, hP] using h
    | true =>
      rw [List.dropWhile_cons, hP, if_pos rfl]
      apply ih
      obtain ⟨a, b, hab⟩ := h
      cases a with
      | nil =>
        cases p with
        | nil => exact absurd rfl hne
        | cons q qs =>
          have hq : q = c := by
            have := congrArg (fun l => l.head?) hab
            simpa using this
          have := hnp q (List.mem_cons_self q qs)
          rw [hq, hP] at this
          cases this
      | cons x a2 =>
        refine ⟨a2, b, ?_⟩
        have := congrArg (fun l => l.tail) hab
        simpa using this

/-- Strip invariance of infix occurrences of whitespace-free patterns. -/
theorem infix_stripChars {p w : Str} (hne : p ≠ [])
    (hnp : ∀ c ∈ p, c.isWhitespace = false) (h : p <:+: w) :
    p <:+: stripChars w := by
  have h1 : p <:+: w.dropWhile Char.isWhitespace :=
    infix_dropWhile_of_none _ hne hnp h
  have h2 := List.reverse_infix.mpr h1
  have h3 : p.reverse <:+:
      ((w.dropWhile Char.isWhitespace).reverse).dropWhile Char.isWhitespace := by
    refine infix_dropWhile_of_none _ ?_ ?_ h2
    · simpa using hne
    · intro c hc; exact hnp c (List.mem_reverse.mp hc)
  have h4 := List.reverse_infix.mpr h3
  simpa [stripChars] using h4

/-- Unfolding equation of `wordRunsAux` on a cons cell. -/
theorem wordRunsAux_cons (c : Char) (rest acc : Str) :
    wordRunsAux (c :: rest) acc =
      if isWordChar c then wordRunsAux rest (c :: acc)
      else if acc = [] then wordRunsAux rest []
      else acc.reverse :: wordRunsAux rest [] := rfl

/-- A leading non-word character does not change the word runs. -/
theorem wordRunsAux_cons_nonword {c : Char} (s : Str)
    (h : isWordChar c = false) : wordRunsAux (c :: s) [] = wordRunsAux s [] := by
  rw [wordRunsAux_cons, h]
  simp

/-- Word runs are unchanged by dropping a whitespace prefix. -/
theorem wordRuns_dropWhile_ws (w : Str) :
    wordRuns (w.dropWhile Char.isWhitespace) = wordRuns w := by
  induction w with
  | nil => rfl
  | cons c t ih =>
    cases hc : c.isWhitespace with
    | false => rw [List.dropWhile_cons, hc]; simp
    | true =>
      rw [List.dropWhile_cons, hc, if_pos rfl, ih]
      exact (wordRunsAux_cons_nonword t (whitespace_not_word hc)).symm

/-- A trailing non-word character does not change `wordRunsAux`. -/
theorem wordRunsAux_append_nonword {c : Char} (h : isWordChar c = false) :
    ∀ (s acc : Str), wordRunsAux (s ++ [c]) acc = wordRunsAux s acc := by
  intro s
  induction s with
  | nil =>
    intro acc
    rw [List.nil_append, wordRunsAux_cons, h]
    cases hacc : acc with
    | nil => simp [wordRunsAux]
    | cons a as => simp [wordRunsAux]
  | cons x s ih =>
    intro acc
    rw [List.cons_append, wordRunsAux_cons, wordRunsAux_cons]
    simp only [ih]

/-- Word runs are unchanged by appending non-word characters. -/
theorem wordRuns_append_nonword :
    ∀ (t : Str), (∀ a ∈ t, isWordChar a = false) →
      ∀ s, wordRuns (s ++ t) = wordRuns s := by
  intro t
  induction t with
  | nil => intro _ s; simp
  | cons a t ih =>
    intro h s
    have hstep : s ++ a :: t = (s ++ [a]) ++ t := by simp
    rw [hstep, ih (fun b hb => h b (List.mem_cons_of_mem _ hb))]
    exact wordRunsAux_append_nonword (h a (List.mem_cons_self _ _)) s []

/-- Stripping whitespace from both ends leaves the word runs unchanged. -/
theorem wordRuns_stripChars (w : Str) :
    wordRuns (stripChars w) = wordRuns w := by
  have h1 := wordRuns_dropWhile_ws w
  have h2 := congrArg List.reverse
    (List.takeWhile_append_dropWhile Char.isWhitespace
      ((w.dropWhile Char.isWhitespace).reverse))
  rw [List.reverse_append, List.reverse_reverse] at h2
  have hjunk : ∀ a ∈
      ((w.dropWhile Char.isWhitespace).reverse.takeWhile Char.isWhitespace).reverse,
      isWordChar a = false := by
    intro a ha
    exact whitespace_not_word (List.mem_takeWhile_imp (List.mem_reverse.mp ha))
  have h3 := wordRuns_append_nonword _ hjunk
    (((w.dropWhile Char.isWhitespace).reverse.dropWhile Char.isWhitespace).reverse)
  rw [h2] at h3
  exact h3.symm.trans h1

/-- Whole-word keyword containment is unchanged by stripping. -/
theorem containsKeywordWholeWord_stripChars (kw w : Str) :
    containsKeywordWholeWord kw (stripChars w) =
      containsKeywordWholeWord kw w := by
  unfold containsKeywordWholeWord
  rw [wordRuns_stripChars]

/-- If some listed pattern is contained in `w`, the pattern scan hits. -/
theorem findBadPattern_isSome {w : Str} {pats : List Str} {p : Str}
    (hp : p ∈ pats) (h : containsSub w p = true) :
    (findBadPattern w pats).isSome = true := by
  induction pats with
  | nil => cases hp
  | cons q qs ih =>
    rw [findBadPattern]
    by_cases hq : containsSub w q = true
    · rw [if_pos hq]; rfl
    · rw [if_neg hq]
      rcases List.mem_cons.mp hp with rfl | hm
      · exact absurd h hq
      · exact ih hm

/-- C1: every raw filter containing `;`, `--`, `/*`, or a deny-listed keyword
as a case-insensitive whole word is rejected by `validate_where_clause`
(`is_valid = false` together with an error message), whatever other text
surrounds the forbidden construct and whatever column list is supplied. -/
theorem claim1_filter_rejects_forbidden (wc : Str) (columns : Option (List Str))
    (h : (∃ pat ∈ SQL_COMMENT_PATTERNS, containsSub wc pat = true) ∨
         (∃ kw ∈ FORBIDDEN_SQL_KEYWORDS, containsKeywordWholeWord kw wc = true)) :
    (validate_where_clause wc columns).1 = false ∧
      (validate_where_clause wc columns).2.isSome = true := by
  have hne : wc ≠ [] := by
    rintro rfl
    rcases h with ⟨pat, hmem, hsub⟩ | ⟨kw, hmem, hww⟩
    · have hinf : pat <:+: ([] : Str) := of_decide_eq_true hsub
      have hpe := List.eq_nil_of_infix_nil hinf
      rw [hpe] at hmem
      exact absurd hmem (by decide)
    · rw [show containsKeywordWholeWord kw [] = false from rfl] at hww
      cases hww
  have hkey : (findBadPattern (stripChars wc) SQL_COMMENT_PATTERNS).isSome = true ∨
      (FORBIDDEN_SQL_KEYWORDS.any
        (fun kw => containsKeywordWholeWord kw (stripChars wc))) = true := by
    rcases h with ⟨pat, hmem, hsub⟩ | ⟨kw, hmem, hww⟩
    · left
      have hinf : pat <:+: wc := of_decide_eq_true hsub
      have hpat : pat ≠ [] ∧ ∀ c ∈ pat, c.isWhitespace = false := by
        fin_cases hmem <;> exact ⟨by decide, by decide⟩
      have hinf2 := infix_stripChars hpat.1 hpat.2 hinf
      exact findBadPattern_isSome hmem (decide_eq_true hinf2)
    · right
      rw [List.any_eq_true]
      exact ⟨kw, hmem, by rw [containsKeywordWholeWord_stripChars]; exact hww⟩
  cases hf : findBadPattern (stripChars wc) SQL_COMMENT_PATTERNS with
  | some pat => simp [validate_where_clause, hne, hf]
  | none =>
    rcases hkey with hk | hk
    · rw [hf] at hk; cases hk
    · simp [validate_where_clause, hne, hf, hk]

/-- C1 witness: the filter `1=1; DROP TABLE users` satisfies the hypothesis
(it contains `;` and `DROP`) and is rejected. -/
theorem claim1_witness :
    ((∃ pat ∈ SQL_COMMENT_PATTERNS,
        containsSub (("1=1; DROP TABLE users").data) pat = true) ∨
     (∃ kw ∈ FORBIDDEN_SQL_KEYWORDS,
        containsKeywordWholeWord kw (("1=1; DROP TABLE users").data) = true)) ∧
    ((validate_where_clause (("1=1; DROP TABLE users").data) none).1 = false ∧
     (validate_where_clause (("1=1; DROP TABLE users").data) none).2.isSome = true) :=
  ⟨by decide, claim1_filter_rejects_forbidden (("1=1; DROP TABLE users").data) none (by decide)⟩

/-- C2: the read gate passes exactly when the snapshot stores `read` or
`write` for the schema, the write gate passes exactly when it stores `write`,
a schema with no grant fails both with `PermissionDeniedError`, and every
failed check raises (returns `Except.error`) rather than returning. -/
theorem claim2_permission_gate (perms : PermMap) (schema : Str) :
    ((check_schema_read_access perms schema = .ok true) ↔
      (perms schema = some permRead ∨ perms schema = some permWrite)) ∧
    ((check_schema_write_access perms schema = .ok true) ↔
      perms schema = some permWrite) ∧
    (perms schema = none →
      check_schema_read_access perms schema = .error (readDeniedMsg schema) ∧
      check_schema_write_access perms schema = .error (writeDeniedMsg schema)) ∧
    (check_schema_read_access perms schema = .ok true ∨
      check_schema_read_access perms schema = .error (readDeniedMsg schema)) ∧
    (check_schema_write_access perms schema = .ok true ∨
      check_schema_write_access perms schema = .error (writeDeniedMsg schema)) := by
  have hne : permWrite ≠ permRead := by decide
  have hr : has_permission perms schema permRead =
      decide (perms schema = some permRead ∨ perms schema = some permWrite) := by
    unfold has_permission
    rw [if_pos rfl]
  have hw : has_permission perms schema permWrite =
      decide (perms schema = some permWrite) := by
    unfold has_permission
    rw [if_neg hne, if_pos rfl]
  refine ⟨?_, ?_, ?_, ?_, ?_⟩
  · by_cases hp : perms schema = some permRead ∨ perms schema = some permWrite
    · have hb : has_permission perms schema permRead = true := by
        rw [hr]; exact decide_eq_true hp
      exact iff_of_true (by simp [check_schema_read_access, hb]) hp
    · have hb : has_permission perms schema permRead = false := by
        rw [hr]; exact decide_eq_false hp
      exact iff_of_false (by simp [check_schema_read_access, hb]) hp
  · by_cases hp : perms schema = some permWrite
    · have hb : has_permission perms schema permWrite = true := by
        rw [hw]; exact decide_eq_true hp
      exact iff_of_true (by simp [check_schema_write_access, hb]) hp
    · have hb : has_permission perms schema permWrite = false := by
        rw [hw]; exact decide_eq_false hp
      exact iff_of_false (by simp [check_schema_write_access, hb]) hp
  · intro hnone
    have hb1 : has_permission perms schema permRead = false := by
      rw [hr]; exact decide_eq_false (by simp [hnone])
    have hb2 : has_permission perms schema permWrite = false := by
      rw [hw]; exact decide_eq_false (by simp [hnone])
    exact ⟨by simp [check_schema_read_access, hb1],
           by simp [check_schema_write_access, hb2]⟩
  · cases hb : has_permission perms schema permRead
    · right; simp [check_schema_read_access, hb]
    · left; simp [check_schema_read_access, hb]
  · cases hb : has_permission perms schema permWrite
    · right; simp [check_schema_write_access, hb]
    · left; simp [check_schema_write_access, hb]

/-- C2 witness: a snapshot granting `write` on `sales` and nothing else. -/
theorem claim2_witness :
    (check_schema_read_access permsSalesWrite (("sales").data) = .ok true ↔
      (permsSalesWrite (("sales").data) = some permRead ∨
       permsSalesWrite (("sales").data) = some permWrite)) ∧
    (permsSalesWrite (("hr").data) = none →
      check_schema_read_access permsSalesWrite (("hr").data) =
        .error (readDeniedMsg (("hr").data)) ∧
      check_schema_write_access permsSalesWrite (("hr").data) =
        .error (writeDeniedMsg (("hr").data))) :=
  ⟨(claim2_permission_gate permsSalesWrite (("sales").data)).1,
   (claim2_permission_gate permsSalesWrite (("hr").data)).2.2.1⟩

/-- C3 counterexample: with a deactivated account, `login` returns the
distinct deactivation message, while the absent-user case returns the generic
invalid-credentials message — the three failure cases are not identical. -/
theorem claim3_counterexample :
    (login inactiveUserDB alwaysFailVerify (("bob@example.com").data)
      (("pw").data)).error_message = some deactivatedMsg ∧
    (login absentUserDB alwaysFailVerify (("bob@example.com").data)
      (("pw").data)).error_message = some invalidCredsMsg ∧
    deactivatedMsg ≠ invalidCredsMsg := by
  exact ⟨by decide, by decide, by decide⟩

/-- C3 amended: the absent-user and wrong-password cases both return
`success = False` with the identical generic invalid-credentials message, but
an existing inactive account returns `success = False` with a distinct
deactivation message. -/
theorem claim3_amended (find : Str → Option AuthUser)
    (verify : Str → Str → Bool) (email password : Str) :
    (find (normalize_email email) = none →
      login find verify email password = ⟨false, some invalidCredsMsg, none⟩) ∧
    (∀ u, find (normalize_email email) = some u → u.is_active = true →
      verify password u.password_hash = false →
      login find verify email password = ⟨false, some invalidCredsMsg, none⟩) ∧
    (∀ u, find (normalize_email email) = some u → u.is_active = false →
      login find verify email password = ⟨false, some deactivatedMsg, none⟩) ∧
    deactivatedMsg ≠ invalidCredsMsg := by
  refine ⟨?_, ?_, ?_, by decide⟩
  · intro h
    simp [login, h]
  · intro u hu ha hv
    simp [login, hu, ha, hv]
  · intro u hu ha
    simp [login, hu, ha]

/-- C3 witness: instantiates the amended theorem on the concrete deactivated
account and the concrete empty directory. -/
theorem claim3_witness :
    (absentUserDB (normalize_email (("bob@example.com").data)) = none ∧
      login absentUserDB alwaysFailVerify (("bob@example.com").data)
        (("pw").data) = ⟨false, some invalidCredsMsg, none⟩) ∧
    (inactiveUserDB (normalize_email (("bob@example.com").data)) =
        some ⟨1, ("bob@example.com").data, ("hash").data, false⟩ ∧
      login inactiveUserDB alwaysFailVerify (("bob@example.com").data)
        (("pw").data) = ⟨false, some deactivatedMsg, none⟩) :=
  ⟨⟨by decide,
    (claim3_amended absentUserDB alwaysFailVerify (("bob@example.com").data)
      (("pw").data)).1 (by decide)⟩,
   ⟨by decide,
    (claim3_amended inactiveUserDB alwaysFailVerify (("bob@example.com").data)
      (("pw").data)).2.2.1 ⟨1, ("bob@example.com").data, ("hash").data, false⟩
      (by decide) rfl⟩⟩

/-- `markUsedFor` changes only the `used` flag. -/
theorem markUsedFor_token (uid : Nat) (t : ResetToken) :
    (markUsedFor uid t).token = t.token := by
  unfold markUsedFor
  split <;> rfl

/-- `markUsedFor` preserves the owner. -/
theorem markUsedFor_user_id (uid : Nat) (t : ResetToken) :
    (markUsedFor uid t).user_id = t.user_id := by
  unfold markUsedFor
  split <;> rfl

/-- After the invalidation `UPDATE`, the first row found for a token value all
of whose owners are `uid` is marked used. -/
theorem find_after_invalidate {l : List ResetToken} {uid : Nat} {tok : Str}
    (hex : ∃ a ∈ l, a.token = tok)
    (hu : ∀ t ∈ l, t.token = tok → t.user_id = uid)
    (rest : List ResetToken) :
    ∃ r, ((l.map (markUsedFor uid)) ++ rest).find?
        (fun t => decide (t.token = tok)) = some r ∧ r.used = true := by
  induction l with
  | nil =>
    rcases hex with ⟨a, ha, _⟩
    cases ha
  | cons x xs ih =>
    rw [List.map_cons, List.cons_append]
    by_cases hx : x.token = tok
    · refine ⟨markUsedFor uid x, ?_, ?_⟩
      · refine List.find?_cons_of_pos _ ?_
        rw [markUsedFor_token]
        exact decide_eq_true hx
      · have hux : x.user_id = uid := hu x (List.mem_cons_self x xs) hx
        unfold markUsedFor
        cases hxu : x.used with
        | true => rw [if_neg (by simp)]; exact hxu
        | false => rw [if_pos ⟨hux, rfl⟩]
    · rw [List.find?_cons_of_neg _ (by rw [markUsedFor_token]; simpa using hx)]
      obtain ⟨a, ha, hatok⟩ := hex
      rcases List.mem_cons.mp ha with rfl | hm
      · exact absurd hatok hx
      · exact ih ⟨a, hm, hatok⟩ (fun t ht htok => hu t (List.mem_cons_of_mem _ ht) htok)

/-- C4: issuing a new reset token first marks every prior unused token of the
user as used and then inserts the fresh one, so afterwards (i) verifying any
pre-existing token value of that user fails at every point in time, even
before its expiry, and (ii) the freshly inserted row is the only unused token
of the user. -/
theorem claim4_token_invalidation (db : AuthDB) (uid : Nat) (newTok : Str)
    (now : Nat) (A : ResetToken) (checkTime : Nat)
    (hA : A ∈ db.tokens)
    (huniq : ∀ t ∈ db.tokens, t.token = A.token → t.user_id = uid) :
    verify_token (create_reset_token db uid newTok now).1 A.token checkTime =
      none ∧
    (∀ t ∈ (create_reset_token db uid newTok now).1.tokens,
      t.user_id = uid → t.used = false →
      t = ⟨uid, newTok, now + TOKEN_EXPIRY_HOURS, false⟩) := by
  constructor
  · obtain ⟨r, hfind, hused⟩ :=
      find_after_invalidate ⟨A, hA, rfl⟩ huniq
        [⟨uid, newTok, now + TOKEN_EXPIRY_HOURS, false⟩]
    unfold verify_token
    simp only [create_reset_token]
    rw [hfind]
    cases hact : db.activeUsers r.user_id with
    | none => simp [hact]
    | some active => simp [hact, hused]
  · intro t ht htu htf
    simp only [create_reset_token] at ht
    rcases List.mem_append.mp ht with hm | hm
    · obtain ⟨s, hs, rfl⟩ := List.mem_map.mp hm
      exfalso
      have hsu : s.user_id = uid := by rw [← markUsedFor_user_id uid s]; exact htu
      have : (markUsedFor uid s).used = true := by
        unfold markUsedFor
        by_cases hc : s.user_id = uid ∧ s.used = false
        · rw [if_pos hc]
        · rw [if_neg hc]
          cases hsu2 : s.used with
          | true => rfl
          | false => exact absurd ⟨hsu, hsu2⟩ hc
      rw [htf] at this
      cases this
    · simpa using hm

/-- C4 witness: after issuing `tokenB` for user 7, the earlier unexpired
`tokenA` no longer verifies (checked at time 60, well before its expiry
at 100). -/
theorem claim4_witness :
    (tokenRowA ∈ authDBForC4.tokens ∧
      (∀ t ∈ authDBForC4.tokens, t.token = tokenRowA.token → t.user_id = 7)) ∧
    (verify_token (create_reset_token authDBForC4 7 (("tokenB").data) 50).1
        tokenRowA.token 60 = none ∧
      (∀ t ∈ (create_reset_token authDBForC4 7 (("tokenB").data) 50).1.tokens,
        t.user_id = 7 → t.used = false →
        t = ⟨7, ("tokenB").data, 50 + TOKEN_EXPIRY_HOURS, false⟩)) :=
  ⟨⟨by decide, by decide⟩,
   claim4_token_invalidation authDBForC4 7 (("tokenB").data) 50 tokenRowA 60
     (by decide) (by decide)⟩

/-- C5 counterexample: the legacy resolver, the only one consulting the
catalog, rejects the malformed id `.users` (empty schema segment) with its
unknown-table error rather than the format error, and the modular
`TableValidator` resolves the well-formed but non-existent `ghost.tbl`
instead of failing with an unknown-table error. -/
theorem claim5_counterexample :
    legacy_validate_table_id catalogPublicUsers ((".users").data) =
      .error (.unknownTable (unknownTableMsg ((".users").data))) ∧
    validate_table_id (("ghost.tbl").data) =
      .ok ((("ghost").data), (("tbl").data)) := by
  exact ⟨rfl, rfl⟩

/-- C5 amended: ids with no dot fail with the `InvalidIdentifier`-class
format error in both resolvers; the modular `TableValidator` additionally
rejects empty segments with a `ValidationError` but resolves every
well-formed id without any catalog check; in the legacy resolver every dotted
id absent from the catalog — including ids with empty segments — fails with
the `UnknownTable` error. -/
theorem claim5_amended (catalog : Str → List Str) (table_id s t : Str) :
    (splitFirstDot table_id = none →
      validate_table_id table_id = .error (formatErrMsg table_id) ∧
      legacy_validate_table_id catalog table_id =
        .error (.invalidFormat (formatErrMsg table_id))) ∧
    (splitFirstDot table_id = some (s, t) → s = [] ∨ t = [] →
      validate_table_id table_id = .error emptySegmentMsg) ∧
    (splitFirstDot table_id = some (s, t) →
      table_id ∉ list_tables_values catalog s →
      legacy_validate_table_id catalog table_id =
        .error (.unknownTable (unknownTableMsg table_id))) ∧
    (splitFirstDot table_id = some (s, t) → s ≠ [] → t ≠ [] →
      validate_table_id table_id = .ok (s, t)) := by
  refine ⟨?_, ?_, ?_, ?_⟩
  · intro h
    constructor
    · unfold validate_table_id
      rw [h]
    · unfold legacy_validate_table_id
      rw [h]
  · intro h hempty
    unfold validate_table_id
    rw [h]
    simp [hempty]
  · intro h hmem
    unfold legacy_validate_table_id
    rw [h]
    simp [hmem]
  · intro h hs ht
    unfold validate_table_id
    rw [h]
    simp [hs, ht]

/-- C5 witness: instantiates the amended theorem on `nodot` (format error in
both resolvers), on `public.ghost` (absent from the catalog, unknown-table
error in the legacy resolver) and on `a.b` (resolved by the modular
validator with no catalog consulted). -/
theorem claim5_witness :
    (splitFirstDot (("nodot").data) = none ∧
      validate_table_id (("nodot").data) =
        .error (formatErrMsg (("nodot").data))) ∧
    (splitFirstDot (("public.ghost").data) =
        some ((("public").data), (("ghost").data)) ∧
      legacy_validate_table_id catalogPublicUsers (("public.ghost").data) =
        .error (.unknownTable (unknownTableMsg (("public.ghost").data)))) ∧
    validate_table_id (("a.b").data) = .ok ((("a").data), (("b").data)) :=
  ⟨⟨by decide,
    ((claim5_amended catalogPublicUsers (("nodot").data) [] []).1
      (by decide)).1⟩,
   ⟨by decide,
    (claim5_amended catalogPublicUsers (("public.ghost").data)
        (("public").data) (("ghost").data)).2.2.1 (by decide) (by decide)⟩,
   (claim5_amended catalogPublicUsers (("a.b").data) (("a").data)
      (("b").data)).2.2.2 (by decide) (by decide) (by decide)⟩

/-- C6 counterexample: the legacy `replace_table` has no emptiness guard —
replacing `public.t` (which holds one row) with an empty frame reports no
failure and leaves the table replaced by the empty frame, not untouched. -/
theorem claim6_counterexample :
    (legacy_replace_table catalogPublicT dbPublicT false (("public.t").data)
      emptyFrame).2 = false ∧
    (legacy_replace_table catalogPublicT dbPublicT false (("public.t").data)
      emptyFrame).1 ((("public").data), (("t").data)) = some emptyFrame ∧
    dbPublicT ((("public").data), (("t").data)) = some frameOneRow ∧
    frameOneRow ≠ emptyFrame := by
  exact ⟨rfl, rfl, rfl, by decide⟩

/-- C6 amended: the modular `save_table_changes` treats a `None` or empty
row-set as a no-op that returns `False` and leaves the database state
untouched; the legacy `replace_table`, by contrast, performs the replacement
even for an empty row-set (see the counterexample). -/
theorem claim6_amended (perms : PermMap) (db : DbState) (backendFail : Bool)
    (table_id : Str) (df : Option Frame)
    (h : df = none ∨ ∃ f, df = some f ∧ f.rows = []) :
    save_table_changes perms db backendFail table_id df = .ok (false, db) := by
  rcases h with rfl | ⟨f, rfl, hf⟩
  · rfl
  · simp [save_table_changes, hf]

/-- C6 witness: saving an empty frame to `public.t` returns `False` and
leaves the state unchanged. -/
theorem claim6_witness :
    (some emptyFrame = none ∨
      ∃ f, some emptyFrame = some f ∧ f.rows = ([] : List (List Str))) ∧
    save_table_changes permsSalesWrite dbPublicT false (("public.t").data)
      (some emptyFrame) = .ok (false, dbPublicT) :=
  ⟨Or.inr ⟨emptyFrame, rfl, rfl⟩,
   claim6_amended permsSalesWrite dbPublicT false (("public.t").data)
     (some emptyFrame) (Or.inr ⟨emptyFrame, rfl, rfl⟩)⟩

/-- C7 counterexample: a failing count backend is not surfaced as a
`DatabaseError` at all (the count silently becomes 0), and a failing page
fetch raises a `DatabaseError` whose message contains the raw backend error
text. -/
theorem claim7_counterexample :
    fetch_data failingQuery (("public").data) (("users").data) 50 0 none =
      .error (fetchErrPrefix ++ ("FATAL: relation missing").data) ∧
    containsSub (fetchErrPrefix ++ ("FATAL: relation missing").data)
      (("FATAL: relation missing").data) = true ∧
    get_row_count failingCount (("public").data) (("users").data) none = 0 := by
  exact ⟨rfl, by decide, rfl⟩

/-- C7 amended: a backend failure of the count query is caught and turned
into a row count of 0 (no error reaches the caller), while a backend failure
of the page fetch is caught and re-raised as a `DatabaseError` whose message
is the generic prefix with the raw backend text appended — so the raw text is
visible to the caller. -/
theorem claim7_amended (runQ : FetchRequest → Except Str Frame)
    (runCount : Str → Except Str Nat) (s t : Str) (limit offset : Nat)
    (wc : Option Str) (e e2 : Str)
    (hq : runQ (fetch_request s t limit offset wc) = .error e)
    (hc : runCount (count_query s t wc) = .error e2) :
    fetch_data runQ s t limit offset wc = .error (fetchErrPrefix ++ e) ∧
    containsSub (fetchErrPrefix ++ e) e = true ∧
    get_row_count runCount s t wc = 0 := by
  refine ⟨?_, ?_, ?_⟩
  · unfold fetch_data
    rw [hq]
  · exact decide_eq_true ⟨fetchErrPrefix, [], by simp⟩
  · unfold get_row_count
    rw [hc]

/-- C7 witness: instantiates the amended theorem on the concrete failing
backends. -/
theorem claim7_witness :
    (failingQuery (fetch_request (("s").data) (("t").data) 50 0 none) =
        .error (("FATAL: relation missing").data) ∧
      failingCount (count_query (("s").data) (("t").data) none) =
        .error (("connection refused").data)) ∧
    (fetch_data failingQuery (("s").data) (("t").data) 50 0 none =
        .error (fetchErrPrefix ++ ("FATAL: relation missing").data) ∧
      containsSub (fetchErrPrefix ++ ("FATAL: relation missing").data)
        (("FATAL: relation missing").data) = true ∧
      get_row_count failingCount (("s").data) (("t").data) none = 0) :=
  ⟨⟨rfl, rfl⟩,
   claim7_amended failingQuery failingCount (("s").data) (("t").data) 50 0
     none (("FATAL: relation missing").data) (("connection refused").data)
     rfl rfl⟩

/-- C8: under a valid table id and read permission, `load_table_data` for a
1-based `page` consults the select backend only through the request whose
bound parameter dictionary is exactly `limit = page_size` and
`offset = (page - 1) * page_size`, whose SQL text ends with
`ORDER BY 1 LIMIT :limit OFFSET :offset` (first column ascending, both
numbers bound rather than interpolated), and whose offset satisfies
`offset + page_size = page * page_size`. -/
theorem claim8_pagination_request (perms : PermMap)
    (runCount : Str → Except Str Nat) (table_id s t : Str)
    (page page_size : Nat) (wc : Option Str)
    (hv : validate_table_id table_id = .ok (s, t))
    (hp : has_permission perms s permRead = true)
    (h1 : 1 ≤ page) :
    (∀ runQ runQ2 : FetchRequest → Except Str Frame,
      runQ (fetch_request s t page_size ((page - 1) * page_size) wc) =
        runQ2 (fetch_request s t page_size ((page - 1) * page_size) wc) →
      load_table_data perms runCount runQ table_id page page_size wc =
        load_table_data perms runCount runQ2 table_id page page_size wc) ∧
    (fetch_request s t page_size ((page - 1) * page_size) wc).params =
      [(("limit").data, page_size),
       (("offset").data, (page - 1) * page_size)] ∧
    orderLimitSuffix <:+
      (fetch_request s t page_size ((page - 1) * page_size) wc).sqlText ∧
    (page - 1) * page_size + page_size = page * page_size := by
  refine ⟨?_, rfl, ?_, ?_⟩
  · intro runQ runQ2 hagree
    simp only [load_table_data, hv, hp, if_true, fetch_data]
    rw [hagree]
  · show orderLimitSuffix <:+ fetch_query_text s t wc
    unfold fetch_query_text
    exact List.suffix_append _ _
  · cases page with
    | zero => exact absurd h1 (by omega)
    | succ p => simp [Nat.succ_sub_one, Nat.succ_mul]

/-- C8 witness: page 3 with page size 50 of `sales.t` is requested at
offset 100 with bound parameters. -/
theorem claim8_witness :
    (validate_table_id (("sales.t").data) =
        .ok ((("sales").data), (("t").data)) ∧
      has_permission permsSalesWrite (("sales").data) permRead = true ∧
      1 ≤ 3) ∧
    ((fetch_request (("sales").data) (("t").data) 50 ((3 - 1) * 50)
        none).params =
      [(("limit").data, 50), (("offset").data, (3 - 1) * 50)] ∧
     orderLimitSuffix <:+
      (fetch_request (("sales").data) (("t").data) 50 ((3 - 1) * 50)
        none).sqlText ∧
     load_table_data permsSalesWrite okCount125 okQueryOneRow
        (("sales.t").data) 3 50 none =
       load_table_data permsSalesWrite okCount125 okQueryOneRow
        (("sales.t").data) 3 50 none) :=
  ⟨⟨rfl, by decide, by decide⟩,
   (claim8_pagination_request permsSalesWrite okCount125 (("sales.t").data)
      (("sales").data) (("t").data) 3 50 none rfl (by decide)
      (by decide)).2.1,
   (claim8_pagination_request permsSalesWrite okCount125 (("sales.t").data)
      (("sales").data) (("t").data) 3 50 none rfl (by decide)
      (by decide)).2.2.1,
   (claim8_pagination_request permsSalesWrite okCount125 (("sales.t").data)
      (("sales").data) (("t").data) 3 50 none rfl (by decide)
      (by decide)).1 okQueryOneRow okQueryOneRow rfl⟩

/-- The `total_pages` expression of `load_table_data` agrees with
`max 1 (ceil(R / n))`, with the ceiling division written `(R + n - 1) / n`. -/
theorem total_pages_max_form (R n : Nat) (hn : 1 ≤ n) :
    (if 0 < R then (R + n - 1) / n else 1) = max 1 ((R + n - 1) / n) := by
  by_cases hR : 0 < R
  · rw [if_pos hR]
    have h1 : 1 ≤ (R + n - 1) / n := by
      rw [Nat.le_div_iff_mul_le (by omega : 0 < n)]
      omega
    exact (Nat.max_eq_right h1).symm
  · rw [if_neg hR]
    have hR0 : R = 0 := by omega
    subst hR0
    have hz : (0 + n - 1) / n = 0 := Nat.div_eq_of_lt (by omega)
    rw [hz]
    decide

/-- C9: every successful `load_table_data` result satisfies
`total_pages = max 1 (ceil(total_rows / page_size))` (so at least 1 even for
an empty table), `has_next = (page < total_pages)` and
`has_previous = (page > 1)`. -/
theorem claim9_queryresult_invariants (perms : PermMap)
    (runCount : Str → Except Str Nat) (runQ : FetchRequest → Except Str Frame)
    (table_id : Str) (page n : Nat) (wc : Option Str) (qr : QueryResult)
    (hn : 1 ≤ n)
    (hok : load_table_data perms runCount runQ table_id page n wc = .ok qr) :
    qr.total_pages = max 1 ((qr.total_rows + n - 1) / n) ∧
    qr.has_next = decide (qr.page < qr.total_pages) ∧
    qr.has_previous = decide (1 < qr.page) ∧
    qr.page = page ∧ qr.page_size = n := by
  cases hv : validate_table_id table_id with
  | error m => simp [load_table_data, hv] at hok
  | ok st =>
    obtain ⟨s, t⟩ := st
    cases hp : has_permission perms s permRead with
    | false => simp [load_table_data, hv, hp] at hok
    | true =>
      cases hf : fetch_data runQ s t n ((page - 1) * n) wc with
      | error m => simp [load_table_data, hv, hp, hf] at hok
      | ok df =>
        simp only [load_table_data, hv, hp, if_true, hf] at hok
        injection hok with h2
        subst h2
        exact ⟨total_pages_max_form _ n hn, rfl, rfl, rfl, rfl⟩

/-- C9 witness: page 3 of a 125-row table at page size 50 yields
`total_pages = 3`, `has_next = false`, `has_previous = true`. -/
theorem claim9_witness :
    (1 ≤ 50 ∧
      load_table_data permsSalesWrite okCount125 okQueryOneRow
        (("sales.t").data) 3 50 none = .ok qrC9) ∧
    (qrC9.total_pages = max 1 ((qrC9.total_rows + 50 - 1) / 50) ∧
      qrC9.has_next = decide (qrC9.page < qrC9.total_pages) ∧
      qrC9.has_previous = decide (1 < qrC9.page) ∧
      qrC9.page = 3 ∧ qrC9.page_size = 50) :=
  ⟨⟨by decide, rfl⟩,
   claim9_queryresult_invariants permsSalesWrite okCount125 okQueryOneRow
     (("sales.t").data) 3 50 none qrC9 (by decide) rfl⟩

/-- C10: when the row-set is non-empty, the table id validates and the write
permission check passes, a failing backend replacement is caught and
`save_table_changes` returns `False` with the database unchanged — the same
observable outcome as the empty-row-set rejection. -/
theorem claim10_backend_failure_returns_false (perms : PermMap) (db : DbState)
    (table_id s t : Str) (f : Frame)
    (hrows : f.rows ≠ [])
    (hv : validate_table_id table_id = .ok (s, t))
    (hp : has_permission perms s permWrite = true) :
    save_table_changes perms db true table_id (some f) = .ok (false, db) ∧
    save_table_changes perms db true table_id none = .ok (false, db) := by
  constructor
  · simp [save_table_changes, hrows, hv, hp, replace_table]
  · rfl

/-- C10 witness: a failing replacement of `sales.t` with a one-row frame
returns `False`, exactly like saving an empty buffer. -/
theorem claim10_witness :
    (frameOneRow.rows ≠ [] ∧
      validate_table_id (("sales.t").data) =
        .ok ((("sales").data), (("t").data)) ∧
      has_permission permsSalesWrite (("sales").data) permWrite = true) ∧
    (save_table_changes permsSalesWrite dbPublicT true (("sales.t").data)
        (some frameOneRow) = .ok (false, dbPublicT) ∧
      save_table_changes permsSalesWrite dbPublicT true (("sales.t").data)
        none = .ok (false, dbPublicT)) :=
  ⟨⟨by decide, rfl, by decide⟩,
   claim10_backend_failure_returns_false permsSalesWrite dbPublicT
     (("sales.t").data) (("sales").data) (("t").data) frameOneRow
     (by decide) rfl (by decide)⟩
